import Mathlib

/-!
Verification of the bookstore backend (FastAPI + SQLAlchemy service layer).

Shallow embedding conventions:
* Python strings are modelled as lists of characters (`PyStr`), so that all
  string operations are structurally recursive and kernel-computable.
  Python built-ins used by the code (`str.split`, `str.upper`, `str.strip`,
  `int(...)`) are modelled for the ASCII fragment the application uses.
* The relational database is modelled as in-memory lists of rows; the ORM
  query combinators are modelled as `List.filter` (WHERE), a stable
  insertion sort (ORDER BY), `drop`/`take` with the SQLite conventions for
  negative OFFSET/LIMIT, and `List.length` (COUNT).
* Each service function returns its Python result as
  `Except PyError result`; list endpoints additionally return the number of
  SQL queries they issued (one per `.count()` or `.all()` call), and
  mutating operations return the database state after the call.
* `CustomException` failures are the typed errors of the application;
  `PyError.valueError`, `PyError.attributeError` and `PyError.zeroDivision`
  model untyped Python exceptions escaping a service function.
-/

/-- Python strings, modelled as lists of characters. -/
abbrev PyStr := List Char

/-- Conversion from Lean string literals to the `PyStr` model. -/
def str (s : String) : PyStr := s.data

/-- Model of Python str.upper for the ASCII fragment used by the code. -/
def pyUpper (s : PyStr) : PyStr := s.map Char.toUpper

/-- ASCII whitespace recognised by Python str.strip and int(...). -/
def isWs (c : Char) : Bool :=
  c = ' ' || c = '\t' || c = '\n' || c = '\r' || c = '\x0b' || c = '\x0c'

/-- Model of Python str.strip (ASCII whitespace). -/
def trimWs (s : PyStr) : PyStr :=
  ((s.dropWhile isWs).reverse.dropWhile isWs).reverse

/-- Model of Python s.split(sep) for a one-character separator: the split on
every occurrence, keeping empty parts, with the empty string mapping to a
single empty part. -/
def splitChar (sep : Char) : PyStr → List PyStr
  | [] => [[]]
  | c :: cs =>
    let r := splitChar sep cs
    if c = sep then [] :: r
    else
      match r with
      | [] => [[c]]
      | p :: ps => (c :: p) :: ps

/-- Boolean test for whether a list starts with another list. -/
def startsWithB [DecidableEq α] : List α → List α → Bool
  | _, [] => true
  | [], _ :: _ => false
  | a :: as, b :: bs => a = b && startsWithB as bs

/-- Boolean substring containment, modelling SQL LIKE with a pattern that is
the needle surrounded by percent wildcards (as the code always builds it). -/
def substrB [DecidableEq α] (hay needle : List α) : Bool :=
  match hay with
  | [] => needle.isEmpty
  | _ :: t => startsWithB hay needle || substrB t needle

/-- Digit test for ASCII decimal digits. -/
def isDigitB (c : Char) : Bool := '0' ≤ c && c ≤ '9'

/-- Numeric value of an ASCII digit. -/
def digitVal (c : Char) : Nat := c.toNat - '0'.toNat

/-- Continuation of the digit parser of Python int(...): digits with single
underscores allowed strictly between digits. -/
def parseDigitsAux : Nat → List Char → Option Nat
  | acc, [] => some acc
  | acc, c :: cs =>
    if isDigitB c then parseDigitsAux (acc * 10 + digitVal c) cs
    else if c = '_' then
      match cs with
      | c2 :: cs2 =>
        if isDigitB c2 then parseDigitsAux (acc * 10 + digitVal c2) cs2 else none
      | [] => none
    else none

/-- Nonempty digit sequence of Python int(...), underscores permitted only
between two digits. -/
def parseDigitsU : List Char → Option Nat
  | [] => none
  | c :: cs => if isDigitB c then parseDigitsAux (digitVal c) cs else none

/-- Model of the Python built-in int(string): optional surrounding
whitespace, an optional sign, then decimal digits (ASCII fragment). -/
def pyIntParse (s : PyStr) : Option Int :=
  match trimWs s with
  | '+' :: rest => (parseDigitsU rest).map Int.ofNat
  | '-' :: rest => (parseDigitsU rest).map (fun n => -(Int.ofNat n))
  | rest => (parseDigitsU rest).map Int.ofNat

/-- Python truthiness of an optional string: None and the empty string are
falsy. -/
def optStrTruthy : Option PyStr → Bool
  | none => false
  | some s => !s.isEmpty

/-- Modelled from the spec: the fixed enumeration of error codes of
app/exceptions/error_codes.py, a file referenced by every service but not
present under src; the constructors are the codes listed in the spec
section 4.1 plus UNKNOWN_ERROR, used by the generic HTTP handler. -/
inductive ErrorCode
  | BAD_REQUEST
  | UNAUTHORIZED
  | FORBIDDEN
  | RESOURCE_NOT_FOUND
  | DUPLICATE_RESOURCE
  | STATE_CONFLICT
  | VALIDATION_FAILED
  | INTERNAL_SERVER_ERROR
  | TOKEN_EXPIRED
  | USER_NOT_FOUND
  | DATABASE_ERROR
  | INVALID_QUERY_PARAM
  | UNPROCESSABLE_ENTITY
  | UNKNOWN_ERROR
deriving DecidableEq, Repr

/-- Values stored in a details dictionary (the code mixes strings and
integers, for example the book id in a not-found payload). -/
inductive DetailVal
  | s (v : PyStr)
  | i (v : Int)
deriving DecidableEq, Repr

/-- The details payload of a CustomException: either a mapping field to
reason, or an ordered list of field and message pairs (both shapes occur in
the code and the spec requires callers to support both). -/
inductive Details
  | dict (entries : List (PyStr × DetailVal))
  | fieldList (entries : List (PyStr × PyStr))
deriving DecidableEq, Repr

/-- app/exceptions/custom_exception.py: the typed application error. -/
structure CustomException where
  status : Int
  code : ErrorCode
  message : PyStr
  details : Option Details := none
deriving DecidableEq, Repr

/-- A Python exception escaping a service function: either the typed
CustomException or one of the untyped built-in exceptions the services can
raise (ValueError from tuple unpacking, AttributeError from getattr,
ZeroDivisionError from the totalPages division). -/
inductive PyError
  | custom (e : CustomException)
  | valueError
  | attributeError
  | zeroDivision
deriving DecidableEq, Repr

/-- True exactly when an escaping exception is not a CustomException. -/
def PyError.isUntyped : PyError → Bool
  | .custom _ => false
  | _ => true

/-- Model of Python floor division, which raises ZeroDivisionError on a zero
divisor and otherwise rounds toward negative infinity (Int.fdiv). -/
def pyFloorDiv (a b : Int) : Except PyError Int :=
  if b = 0 then .error .zeroDivision else .ok (a.fdiv b)

/-- SQL OFFSET as issued through the ORM against SQLite: a negative offset
behaves like zero. -/
def dropInt (l : List α) (n : Int) : List α := l.drop n.toNat

/-- SQL LIMIT as issued through the ORM against SQLite: a negative limit
means no limit. -/
def takeInt (l : List α) (n : Int) : List α :=
  if n < 0 then l else l.take n.toNat

/-- Stable insertion of one element into a sorted list (helper for the ORDER
BY model). -/
def insertLe (le : α → α → Bool) (a : α) : List α → List α
  | [] => [a]
  | b :: bs => if le a b then a :: b :: bs else b :: insertLe le a bs

/-- Stable insertion sort modelling ORDER BY (kernel-computable). -/
def sortLe (le : α → α → Bool) : List α → List α
  | [] => []
  | a :: as => insertLe le a (sortLe le as)

/-- ORDER BY with a column comparator and direction, as built by
column.desc() / column.asc() in the services. -/
def orderBy (le : α → α → Bool) (descB : Bool) (l : List α) : List α :=
  if descB then sortLe (fun a b => le b a) l else sortLe le l

/-- app/models/user.py: the users table. Relationship backrefs (comments,
ratings) and ORM metadata attributes are not modelled; no claim sorts by
them. -/
structure User where
  id : Int
  email : PyStr
  hashed_password : PyStr
  name : PyStr
  phone : Option PyStr := none
  address : Option PyStr := none
  role : PyStr := str "USER"
  status : PyStr := str "ACTIVE"
  created_at : Int := 0
  updated_at : Option Int := none
deriving DecidableEq, Repr

/-- app/models/book.py: the books table. Dates and timestamps are modelled
as integers (their ordering is all the services use). -/
structure Book where
  id : Int
  isbn : PyStr
  title : PyStr
  price : Int
  publisher : Option PyStr := none
  summary : Option PyStr := none
  publication_date : Option Int := none
  authors : Option PyStr := none
  categories : Option PyStr := none
  created_at : Int := 0
  updated_at : Option Int := none
deriving DecidableEq, Repr

/-- app/models/comment.py: the comments table. -/
structure Comment where
  id : Int
  user_id : Int
  book_id : Int
  content : PyStr
  created_at : Int := 0
  updated_at : Option Int := none
deriving DecidableEq, Repr

/-- app/models/rating.py: the ratings table, carrying the uniqueness
constraint on the pair of user id and book id. -/
structure Rating where
  id : Int
  user_id : Int
  book_id : Int
  score : Int
  created_at : Int := 0
  updated_at : Option Int := none
deriving DecidableEq, Repr

/-- The relational database state touched by the services. -/
structure DB where
  users : List User := []
  books : List Book := []
  comments : List Comment := []
  ratings : List Rating := []
deriving DecidableEq, Repr

/-- app/schemas/comment.py: CommentResponse, the subset of comment columns
serialized in list endpoints. -/
structure CommentResponse where
  id : Int
  user_id : Int
  book_id : Int
  content : PyStr
  created_at : Int
deriving DecidableEq, Repr

/-- CommentResponse.model_validate on an ORM row. -/
def commentResponseOf (c : Comment) : CommentResponse :=
  { id := c.id, user_id := c.user_id, book_id := c.book_id,
    content := c.content, created_at := c.created_at }

/-- app/schemas/rating.py: RatingResponse. -/
structure RatingResponse where
  id : Int
  user_id : Int
  book_id : Int
  score : Int
  created_at : Option Int
deriving DecidableEq, Repr

/-- RatingResponse.model_validate on an ORM row. -/
def ratingResponseOf (r : Rating) : RatingResponse :=
  { id := r.id, user_id := r.user_id, book_id := r.book_id,
    score := r.score, created_at := some r.created_at }

/-- app/schemas/user.py: UserResponse. -/
structure UserResponse where
  id : Int
  email : PyStr
  name : PyStr
  phone : Option PyStr
  address : Option PyStr
  role : PyStr
  status : PyStr
deriving DecidableEq, Repr

/-- UserResponse.model_validate on an ORM row. -/
def userResponseOf (u : User) : UserResponse :=
  { id := u.id, email := u.email, name := u.name, phone := u.phone,
    address := u.address, role := u.role, status := u.status }

/-- app/services/book_service.py serialize_book: the response dictionary,
with the delimited author and category strings split back into lists (the
falsy branch of the conditional turns None and the empty string into the
empty list). -/
structure BookOut where
  id : Int
  isbn : PyStr
  title : PyStr
  price : Int
  publisher : Option PyStr
  summary : Option PyStr
  publicationDate : Option Int
  authors : List PyStr
  categories : List PyStr
deriving DecidableEq, Repr

/-- Splitting of a nullable delimited column as in serialize_book. -/
def splitListField : Option PyStr → List PyStr
  | none => []
  | some s => if s.isEmpty then [] else splitChar ',' s

/-- app/services/book_service.py serialize_book. -/
def serialize_book (b : Book) : BookOut :=
  { id := b.id, isbn := b.isbn, title := b.title, price := b.price,
    publisher := b.publisher, summary := b.summary,
    publicationDate := b.publication_date,
    authors := splitListField b.authors,
    categories := splitListField b.categories }

/-- Comparator on nullable columns: SQLite sorts NULL before every value in
ascending order. -/
def optLe (f : α → α → Bool) : Option α → Option α → Bool
  | none, _ => true
  | some _, none => false
  | some a, some b => f a b

/-- Lexicographic comparison of text columns by code point. -/
def lexLe : PyStr → PyStr → Bool
  | [], _ => true
  | _ :: _, [] => false
  | a :: as, b :: bs => if a = b then lexLe as bs else decide (a < b)

/-- The mapped column attributes of the Comment model class, as seen by
getattr; the relationship attributes user and book are not modelled. -/
def Comment.attrNames : List PyStr :=
  [str "id", str "user_id", str "book_id", str "content",
   str "created_at", str "updated_at"]

/-- Ascending comparator for a Comment column named by the sort parameter. -/
def commentColLe (field : PyStr) (a b : Comment) : Bool :=
  if field = str "id" then a.id ≤ b.id
  else if field = str "user_id" then a.user_id ≤ b.user_id
  else if field = str "book_id" then a.book_id ≤ b.book_id
  else if field = str "content" then lexLe a.content b.content
  else if field = str "created_at" then a.created_at ≤ b.created_at
  else optLe (fun x y : Int => x ≤ y) a.updated_at b.updated_at

/-- The mapped column attributes of the Rating model class, as tested by
hasattr in the ratings listing. -/
def Rating.attrNames : List PyStr :=
  [str "id", str "user_id", str "book_id", str "score",
   str "created_at", str "updated_at"]

/-- Ascending comparator for a Rating column named by the sort parameter. -/
def ratingColLe (field : PyStr) (a b : Rating) : Bool :=
  if field = str "id" then a.id ≤ b.id
  else if field = str "user_id" then a.user_id ≤ b.user_id
  else if field = str "book_id" then a.book_id ≤ b.book_id
  else if field = str "score" then a.score ≤ b.score
  else if field = str "created_at" then a.created_at ≤ b.created_at
  else optLe (fun x y : Int => x ≤ y) a.updated_at b.updated_at

/-- The mapped column attributes of the Book model class. -/
def Book.attrNames : List PyStr :=
  [str "id", str "isbn", str "title", str "price", str "publisher",
   str "summary", str "publication_date", str "authors", str "categories",
   str "created_at", str "updated_at"]

/-- Ascending comparator for a Book column named by the sort parameter. -/
def bookColLe (field : PyStr) (a b : Book) : Bool :=
  if field = str "id" then a.id ≤ b.id
  else if field = str "isbn" then lexLe a.isbn b.isbn
  else if field = str "title" then lexLe a.title b.title
  else if field = str "price" then a.price ≤ b.price
  else if field = str "publisher" then optLe lexLe a.publisher b.publisher
  else if field = str "summary" then optLe lexLe a.summary b.summary
  else if field = str "publication_date" then
    optLe (fun x y : Int => x ≤ y) a.publication_date b.publication_date
  else if field = str "authors" then optLe lexLe a.authors b.authors
  else if field = str "categories" then optLe lexLe a.categories b.categories
  else if field = str "created_at" then a.created_at ≤ b.created_at
  else optLe (fun x y : Int => x ≤ y) a.updated_at b.updated_at

/-- The mapped column attributes of the User model class. -/
def User.attrNames : List PyStr :=
  [str "id", str "email", str "hashed_password", str "name", str "phone",
   str "address", str "role", str "status", str "created_at",
   str "updated_at"]

/-- Ascending comparator for a User column named by the sort parameter. -/
def userColLe (field : PyStr) (a b : User) : Bool :=
  if field = str "id" then a.id ≤ b.id
  else if field = str "email" then lexLe a.email b.email
  else if field = str "hashed_password" then
    lexLe a.hashed_password b.hashed_password
  else if field = str "name" then lexLe a.name b.name
  else if field = str "phone" then optLe lexLe a.phone b.phone
  else if field = str "address" then optLe lexLe a.address b.address
  else if field = str "role" then lexLe a.role b.role
  else if field = str "status" then lexLe a.status b.status
  else if field = str "created_at" then a.created_at ≤ b.created_at
  else optLe (fun x y : Int => x ≤ y) a.updated_at b.updated_at

/-- Constructor mirroring the positional CustomException(status, code,
message, details) call shape used throughout the services, wrapped as a
PyError. -/
def mkExc (status : Int) (code : ErrorCode) (message : PyStr)
    (details : Option Details := none) : PyError :=
  .custom { status := status, code := code, message := message,
            details := details }

/-- app/exceptions/error_response.py plus the envelope produced by the
handler: the fixed error envelope. -/
structure ErrorResponse where
  timestamp : PyStr
  path : PyStr
  status : Int
  code : ErrorCode
  message : PyStr
  details : Option Details
deriving DecidableEq, Repr

/-- app/exceptions/handler.py custom_exception_handler: renders a
CustomException into the fixed envelope with the current timestamp and the
request path. -/
def custom_exception_handler (timestamp path : PyStr) (exc : CustomException) :
    ErrorResponse :=
  { timestamp := timestamp, path := path, status := exc.status,
    code := exc.code, message := exc.message, details := exc.details }

/-- A try block whose except clauses re-raise CustomException and turn any
other exception into a 500 INTERNAL_SERVER_ERROR with the given message. -/
def wrap500 (msg : PyStr) : Except PyError α × Nat → Except PyError α × Nat
  | (.ok v, n) => (.ok v, n)
  | (.error (.custom e), n) => (.error (.custom e), n)
  | (.error _, n) => (.error (mkExc 500 .INTERNAL_SERVER_ERROR msg), n)

/-- A try block with a bare except clause (or an except Exception clause
with no CustomException raised inside) turning any exception into a 500
INTERNAL_SERVER_ERROR with the given message. -/
def wrapBare (msg : PyStr) : Except PyError α × Nat → Except PyError α × Nat
  | (.ok v, n) => (.ok v, n)
  | (.error _, n) => (.error (mkExc 500 .INTERNAL_SERVER_ERROR msg), n)

/-- The identity resolved by get_current_user: id and role of the caller. -/
structure AuthUser where
  id : Int
  role : PyStr
deriving DecidableEq, Repr

/-- app/schemas/comment.py CommentUpdate: an optional content field. -/
structure CommentUpdate where
  content : Option PyStr := none
deriving DecidableEq, Repr

/-- The response dictionary of the comments listing. -/
structure CommentsPage where
  content : List CommentResponse
  page : Int
  size : Int
  totalElements : Int
  totalPages : Int
  sort : PyStr
  keyword : Option PyStr
deriving DecidableEq, Repr

/-- app/services/comment_service.py get_comments_paginated. The function
performs no page or size validation: it parses the sort parameter (a
ValueError escapes if the split does not yield exactly two parts, an
AttributeError if the left part is not an attribute of Comment), builds the
filtered and ordered query, then issues the count query and the fetch
query; the totalPages floor division raises ZeroDivisionError on size zero.
The second component counts the SQL queries issued. -/
def get_comments_paginated (db : DB) (book_id : Int) (page : Int := 1)
    (size : Int := 10) (sort : PyStr := str "id,DESC")
    (keyword : Option PyStr := none) : Except PyError CommentsPage × Nat :=
  match splitChar ',' sort with
  | [field, direction] =>
    if field ∈ Comment.attrNames then
      let base := db.comments.filter (fun c => c.book_id == book_id)
      let filtered :=
        if optStrTruthy keyword then
          base.filter (fun c => substrB c.content (keyword.getD []))
        else base
      let sorted :=
        orderBy (commentColLe field) (pyUpper direction == str "DESC") filtered
      let total := sorted.length
      let rows := takeInt (dropInt sorted ((page - 1) * size)) size
      match pyFloorDiv ((total : Int) + size - 1) size with
      | .error e => (.error e, 2)
      | .ok tp =>
        (.ok { content := rows.map commentResponseOf, page := page,
               size := size, totalElements := (total : Int), totalPages := tp,
               sort := sort, keyword := keyword }, 2)
    else (.error .attributeError, 0)
  | _ => (.error .valueError, 0)

/-- app/routers/comment_router.py list_comments: passes the query
parameters to the service unchanged (no page or size validation). -/
def list_comments (db : DB) (book_id : Int) (page : Int := 1)
    (size : Int := 10) (sort : PyStr := str "id,DESC")
    (keyword : Option PyStr := none) : Except PyError CommentsPage × Nat :=
  get_comments_paginated db book_id page size sort keyword

/-- app/services/comment_service.py update_comment: 404 when the comment is
missing, 403 when the caller is not the author, a no-op success when the
payload has no content, 422 when the content is empty after strip, and the
content replacement otherwise. Returns the result and the database after
the call. -/
def update_comment (db : DB) (comment_id user_id : Int) (data : CommentUpdate) :
    Except PyError Comment × DB :=
  match db.comments.find? (fun c => c.id == comment_id) with
  | none =>
    (.error (mkExc 404 .RESOURCE_NOT_FOUND (str "Comment not found")
      (some (.dict [(str "comment_id", .i comment_id)]))), db)
  | some comment =>
    if comment.user_id ≠ user_id then
      (.error (mkExc 403 .FORBIDDEN (str "수정 권한 없음")
        (some (.dict [(str "comment_id", .i comment_id)]))), db)
    else
      match data.content with
      | none => (.ok comment, db)
      | some s =>
        if (trimWs s).length = 0 then
          (.error (mkExc 422 .VALIDATION_FAILED (str "Validation failed")
            (some (.fieldList
              [(str "content", str "최소 1자 이상 입력해야 합니다.")]))), db)
        else
          (.ok { comment with content := s },
           { db with
             comments := db.comments.map
               (fun c => if c.id == comment_id then { c with content := s }
                         else c) })

/-- app/services/comment_service.py delete_comment: 404 when missing, 403
when the caller id differs from the author id (the role of the caller is
never consulted), deletion otherwise. -/
def delete_comment (db : DB) (comment_id user_id : Int) :
    Except PyError Bool × DB :=
  match db.comments.find? (fun c => c.id == comment_id) with
  | none =>
    (.error (mkExc 404 .RESOURCE_NOT_FOUND (str "Comment not found")
      (some (.dict [(str "comment_id", .i comment_id)]))), db)
  | some comment =>
    if comment.user_id ≠ user_id then
      (.error (mkExc 403 .FORBIDDEN (str "삭제 권한 없음")
        (some (.dict [(str "comment_id", .i comment_id)]))), db)
    else
      (.ok true,
       { db with
         comments := db.comments.filter (fun c => c.id != comment_id) })

/-- app/routers/comment_router.py remove_comment: resolves the caller and
calls delete_comment with the caller id only. -/
def remove_comment (db : DB) (comment_id : Int) (user : AuthUser) :
    Except PyError (List (PyStr × PyStr)) × DB :=
  match delete_comment db comment_id user.id with
  | (.ok _, db2) => (.ok [(str "message", str "deleted")], db2)
  | (.error e, db2) => (.error e, db2)

/-- app/schemas/user.py UserCreate. -/
structure UserCreate where
  email : PyStr
  password : PyStr
  name : PyStr
  phone : Option PyStr := none
  address : Option PyStr := none
deriving DecidableEq, Repr

/-- app/services/user_service.py create_user. The whole body sits in a try
with a bare except that rolls back and raises 409 DUPLICATE_RESOURCE, so
every commit failure - the IntegrityError from a duplicate email as well as
any transient database failure, injected here through the commitOk flag -
is reported as the duplicate-email conflict. hash injects the bcrypt
collaborator and nextId the autoincrement key. -/
def create_user (db : DB) (commitOk : Bool) (hash : PyStr → PyStr)
    (nextId : Int) (data : UserCreate) : Except PyError User × DB :=
  if db.users.any (fun u => u.email == data.email) || !commitOk then
    (.error (mkExc 409 .DUPLICATE_RESOURCE (str "이미 존재하는 이메일입니다.")
      (some (.dict [(str "email", .s data.email)]))), db)
  else
    let u : User :=
      { id := nextId, email := data.email,
        hashed_password := hash data.password, name := data.name,
        phone := data.phone, address := data.address,
        role := str "USER", status := str "ACTIVE" }
    (.ok u, { db with users := db.users ++ [u] })

/-- The response dictionary of the admin user listing. -/
structure UsersPage where
  items : List UserResponse
  page : Int
  size : Int
  total : Int
  sort : PyStr
deriving DecidableEq, Repr

/-- app/services/user_service.py get_users_admin: rejects page and size
below one with 422 VALIDATION_FAILED before anything else, then validates
the sort format (split into two parts naming a User attribute) inside a try
whose bare except raises 400 INVALID_QUERY_PARAM, then runs the filtered
and ordered count and fetch queries. The second component counts the SQL
queries issued. -/
def get_users_admin (db : DB) (page : Int := 1) (size : Int := 20)
    (sort : PyStr := str "id,ASC") (role : Option PyStr := none)
    (keyword : Option PyStr := none) : Except PyError UsersPage × Nat :=
  if page < 1 then
    (.error (mkExc 422 .VALIDATION_FAILED (str "Validation failed")
      (some (.fieldList [(str "page", str "must be >= 1")]))), 0)
  else if size < 1 then
    (.error (mkExc 422 .VALIDATION_FAILED (str "Validation failed")
      (some (.fieldList [(str "size", str "must be >= 1")]))), 0)
  else
    let sortErr : Except PyError UsersPage × Nat :=
      (.error (mkExc 400 .INVALID_QUERY_PARAM
        (str "올바르지 않은 정렬 형식입니다. 예) id,ASC")
        (some (.dict [(str "sort", .s sort)]))), 0)
    match splitChar ',' sort with
    | [field, direction] =>
      if field ∈ User.attrNames then
        let q1 :=
          if optStrTruthy role then
            db.users.filter (fun u => u.role == pyUpper (role.getD []))
          else db.users
        let q2 :=
          if optStrTruthy keyword then
            q1.filter (fun u => substrB u.name (keyword.getD [])
              || substrB u.email (keyword.getD []))
          else q1
        let sorted :=
          orderBy (userColLe field) (pyUpper direction == str "DESC") q2
        let total := sorted.length
        let users := takeInt (dropInt sorted ((page - 1) * size)) size
        (.ok { items := users.map userResponseOf, page := page, size := size,
               total := (total : Int), sort := sort }, 2)
      else sortErr
    | _ => sortErr

/-- The response dictionary of the public book listing. -/
structure BooksPage where
  content : List BookOut
  page : Int
  size : Int
  totalElements : Int
  totalPages : Int
  sort : PyStr
deriving DecidableEq, Repr

/-- app/services/book_service.py get_books_paginated: inside a try that
re-raises CustomException and maps any other exception to 500, the sort
parameter is split (getattr with a None default turns an unknown field into
400 INVALID_QUERY_PARAM), then the count query over all books and the
ordered fetch query are issued; no page or size validation happens here
(the router does it). -/
def get_books_paginated (db : DB) (page : Int := 1) (size : Int := 10)
    (sort : PyStr := str "id,ASC") : Except PyError BooksPage × Nat :=
  wrap500 (str "책 목록 조회 중 오류가 발생했습니다.") <|
    match splitChar ',' sort with
    | [field, order] =>
      if field ∈ Book.attrNames then
        let sorted :=
          orderBy (bookColLe field) (pyUpper order == str "DESC") db.books
        let total := db.books.length
        let books := takeInt (dropInt sorted ((page - 1) * size)) size
        match pyFloorDiv ((total : Int) + size - 1) size with
        | .error e => (.error e, 2)
        | .ok tp =>
          (.ok { content := books.map serialize_book, page := page,
                 size := size, totalElements := (total : Int),
                 totalPages := tp, sort := sort }, 2)
      else
        (.error (mkExc 400 .INVALID_QUERY_PARAM (str "Invalid sort field")
          (some (.dict [(str "sort", .s sort)]))), 0)
    | _ => (.error .valueError, 0)

/-- The response dictionary of the unified book search. -/
structure SearchPage where
  content : List BookOut
  page : Int
  size : Int
  totalElements : Int
  totalPages : Int
  sort : PyStr
  keyword : Option PyStr
  category : Option PyStr
deriving DecidableEq, Repr

/-- The LIKE-based match of the unified search across title, summary,
authors, categories and isbn; a NULL column never matches (SQL three-valued
logic collapses to false inside the OR). -/
def bookMatchKeyword (kw : PyStr) (b : Book) : Bool :=
  substrB b.title kw || substrB (b.summary.getD []) kw
    || substrB (b.authors.getD []) kw || substrB (b.categories.getD []) kw
    || substrB b.isbn kw

/-- app/services/book_service.py search_books: same try structure and sort
handling as get_books_paginated, with the keyword and category LIKE filters
applied before counting. -/
def search_books (db : DB) (keyword : Option PyStr := none)
    (category : Option PyStr := none) (page : Int := 1) (size : Int := 10)
    (sort : PyStr := str "id,ASC") : Except PyError SearchPage × Nat :=
  wrap500 (str "검색 처리 중 오류가 발생했습니다.") <|
    match splitChar ',' sort with
    | [field, order] =>
      if field ∈ Book.attrNames then
        let q1 :=
          if optStrTruthy keyword then
            db.books.filter (bookMatchKeyword (keyword.getD []))
          else db.books
        let q2 :=
          if optStrTruthy category then
            q1.filter (fun b => substrB (b.categories.getD [])
              (category.getD []))
          else q1
        let total := q2.length
        let sorted := orderBy (bookColLe field) (pyUpper order == str "DESC") q2
        let books := takeInt (dropInt sorted ((page - 1) * size)) size
        match pyFloorDiv ((total : Int) + size - 1) size with
        | .error e => (.error e, 2)
        | .ok tp =>
          (.ok { content := books.map serialize_book, page := page,
                 size := size, totalElements := (total : Int),
                 totalPages := tp, sort := sort, keyword := keyword,
                 category := category }, 2)
      else
        (.error (mkExc 400 .INVALID_QUERY_PARAM (str "Invalid sort field")
          (some (.dict [(str "sort", .s sort)]))), 0)
    | _ => (.error .valueError, 0)

/-- The response dictionary of the price filter listing. -/
structure PricePage where
  content : List BookOut
  page : Int
  size : Int
  totalElements : Int
  totalPages : Int
  sort : PyStr
  min_price : Option Int
  max_price : Option Int
deriving DecidableEq, Repr

/-- app/services/book_service.py filter_by_price: price bounds filter the
query before the sort parameter is parsed; the try structure matches the
other book listings. -/
def filter_by_price (db : DB) (min_price : Option Int := none)
    (max_price : Option Int := none) (page : Int := 1) (size : Int := 10)
    (sort : PyStr := str "price,ASC") : Except PyError PricePage × Nat :=
  wrap500 (str "가격 필터 처리 중 오류 발생") <|
    let q1 :=
      match min_price with
      | some m => db.books.filter (fun b => decide (m ≤ b.price))
      | none => db.books
    let q2 :=
      match max_price with
      | some m => q1.filter (fun b => decide (b.price ≤ m))
      | none => q1
    match splitChar ',' sort with
    | [field, direction] =>
      if field ∈ Book.attrNames then
        let total := q2.length
        let sorted :=
          orderBy (bookColLe field) (pyUpper direction == str "DESC") q2
        let books := takeInt (dropInt sorted ((page - 1) * size)) size
        match pyFloorDiv ((total : Int) + size - 1) size with
        | .error e => (.error e, 2)
        | .ok tp =>
          (.ok { content := books.map serialize_book, page := page,
                 size := size, totalElements := (total : Int),
                 totalPages := tp, sort := sort, min_price := min_price,
                 max_price := max_price }, 2)
      else
        (.error (mkExc 400 .INVALID_QUERY_PARAM (str "Invalid sort field")
          (some (.dict [(str "sort", .s sort)]))), 0)
    | _ => (.error .valueError, 0)

/-- app/routers/book_router.py list_books: rejects page below one and size
outside one to fifty with 400 INVALID_QUERY_PARAM before calling the
service. -/
def list_books (db : DB) (page : Int := 1) (size : Int := 10)
    (sort : PyStr := str "id,ASC") : Except PyError BooksPage × Nat :=
  if page < 1 then
    (.error (mkExc 400 .INVALID_QUERY_PARAM (str "page는 1 이상이어야 합니다.")
      (some (.dict [(str "page", .i page)]))), 0)
  else if size < 1 ∨ size > 50 then
    (.error (mkExc 400 .INVALID_QUERY_PARAM (str "size는 1~50 사이여야 합니다.")
      (some (.dict [(str "size", .i size)]))), 0)
  else get_books_paginated db page size sort

/-- app/routers/book_router.py search_books_api: same page and size guards
as list_books, then the search service. -/
def search_books_api (db : DB) (keyword : Option PyStr := none)
    (category : Option PyStr := none) (page : Int := 1) (size : Int := 10)
    (sort : PyStr := str "id,ASC") : Except PyError SearchPage × Nat :=
  if page < 1 then
    (.error (mkExc 400 .INVALID_QUERY_PARAM (str "page는 1 이상이어야 합니다.")
      (some (.dict [(str "page", .i page)]))), 0)
  else if size < 1 ∨ size > 50 then
    (.error (mkExc 400 .INVALID_QUERY_PARAM (str "size는 1~50 사이여야 합니다.")
      (some (.dict [(str "size", .i size)]))), 0)
  else search_books db keyword category page size sort

/-- app/routers/book_router.py filter_books_by_price: page and size arrive
as strings and are parsed with int (422 UNPROCESSABLE_ENTITY on failure),
range-checked (400), then the price bounds are parsed (422) and checked for
logical order (400) before the service runs. -/
def filter_books_by_price (db : DB) (min_price : Option PyStr := none)
    (max_price : Option PyStr := none) (page : PyStr := str "1")
    (size : PyStr := str "10") (sort : PyStr := str "price,ASC") :
    Except PyError PricePage × Nat :=
  match pyIntParse page, pyIntParse size with
  | some p, some s =>
    if p < 1 ∨ s < 1 ∨ s > 50 then
      (.error (mkExc 400 .INVALID_QUERY_PARAM (str "Invalid pagination value")
        (some (.dict [(str "page", .i p), (str "size", .i s)]))), 0)
    else
      let mnR : Option (Option Int) :=
        match min_price with
        | none => some none
        | some mp => (pyIntParse mp).map some
      let mxR : Option (Option Int) :=
        match max_price with
        | none => some none
        | some mp => (pyIntParse mp).map some
      match mnR, mxR with
      | some mn, some mx =>
        match mn, mx with
        | some a, some b =>
          if a > b then
            (.error (mkExc 400 .INVALID_QUERY_PARAM
              (str "min_price must be <= max_price")
              (some (.dict [(str "min_price", .i a),
                            (str "max_price", .i b)]))), 0)
          else filter_by_price db mn mx p s sort
        | _, _ => filter_by_price db mn mx p s sort
      | _, _ =>
        (.error (mkExc 422 .UNPROCESSABLE_ENTITY (str "Validation failed")
          (some (.dict [(str "min_price/max_price",
                         .s (str "must be integer"))]))), 0)
  | _, _ =>
    (.error (mkExc 422 .UNPROCESSABLE_ENTITY (str "Validation failed")
      (some (.dict [(str "page/size", .s (str "must be integer"))]))), 0)

/-- app/services/rating_service.py create_rating: book existence check (one
query), duplicate check for the caller and book pair (one query), the
isinstance int check (always satisfied in the typed model), the 1..5 range
check, then the insert; the except clauses map database failures of the
insert to 500, which cannot arise in the sequential model where commits
succeed. nextId injects the autoincrement key. -/
def create_rating (db : DB) (user_id book_id score : Int) (nextId : Int) :
    Except PyError Rating × DB :=
  if !(db.books.any (fun b => b.id == book_id)) then
    (.error (mkExc 404 .RESOURCE_NOT_FOUND (str "Book not found")
      (some (.dict [(str "book_id", .i book_id)]))), db)
  else if db.ratings.any
      (fun r => r.user_id == user_id && r.book_id == book_id) then
    (.error (mkExc 409 .STATE_CONFLICT
      (str "이미 이 책에 대한 평점을 등록했습니다.")
      (some (.dict [(str "book_id", .i book_id)]))), db)
  else if score < 1 ∨ score > 5 then
    (.error (mkExc 422 .VALIDATION_FAILED (str "Validation failed")
      (some (.fieldList [(str "score", str "must be between 1~5")]))), db)
  else
    let r : Rating :=
      { id := nextId, user_id := user_id, book_id := book_id, score := score }
    (.ok r, { db with ratings := db.ratings ++ [r] })

/-- app/services/rating_service.py update_rating: looks up the rating of
the caller and book pair, 404 when absent, re-validates the score range,
then updates the score of that row. -/
def update_rating (db : DB) (user_id book_id score : Int) :
    Except PyError Rating × DB :=
  match db.ratings.find?
      (fun r => r.user_id == user_id && r.book_id == book_id) with
  | none =>
    (.error (mkExc 404 .RESOURCE_NOT_FOUND (str "평점을 찾을 수 없습니다.")
      (some (.dict [(str "book_id", .i book_id)]))), db)
  | some rating =>
    if score < 1 ∨ score > 5 then
      (.error (mkExc 422 .VALIDATION_FAILED (str "Validation failed")
        (some (.fieldList
          [(str "score", str "value must be between 1~5")]))), db)
    else
      (.ok { rating with score := score },
       { db with
         ratings := db.ratings.map
           (fun r => if r.id == rating.id then { r with score := score }
                     else r) })

/-- app/services/rating_service.py delete_rating: keyed by the caller id
and book id, 404 when absent, then deletes that row. -/
def delete_rating (db : DB) (user_id book_id : Int) :
    Except PyError Bool × DB :=
  match db.ratings.find?
      (fun r => r.user_id == user_id && r.book_id == book_id) with
  | none =>
    (.error (mkExc 404 .RESOURCE_NOT_FOUND (str "Rating not found")
      (some (.dict [(str "book_id", .i book_id)]))), db)
  | some rating =>
    (.ok true,
     { db with ratings := db.ratings.filter (fun r => r.id != rating.id) })

/-- The response dictionary of the ratings listing. -/
structure RatingsPage where
  content : List RatingResponse
  page : Int
  size : Int
  totalElements : Int
  totalPages : Int
  sort : PyStr
  keyword : Option PyStr
  minScore : Option Int
  maxScore : Option Int
deriving DecidableEq, Repr

/-- app/services/rating_service.py get_book_ratings, in the order of the
code: the keyword parameter is parsed with int (422 citing keyword on
failure), the sort parameter is split and its direction upper-cased and
required to be ASC or DESC (422 citing sort otherwise, likewise for a left
part that is not a Rating attribute), the isinstance checks on minScore and
maxScore are always satisfied in the typed model, page and size below one
are rejected with 422, and only then are the filtered and ordered count and
fetch queries issued inside a try mapping any exception to 500. The second
component counts the SQL queries issued. -/
def get_book_ratings (db : DB) (book_id : Int) (page : Int := 1)
    (size : Int := 10) (sort : PyStr := str "id,DESC")
    (keyword : Option PyStr := none) (minScore : Option Int := none)
    (maxScore : Option Int := none) : Except PyError RatingsPage × Nat :=
  let kwR : Except PyError (Option Int) :=
    match keyword with
    | some k =>
      match pyIntParse k with
      | some v => .ok (some v)
      | none =>
        .error (mkExc 422 .VALIDATION_FAILED (str "Validation failed")
          (some (.fieldList [(str "keyword", str "must be integer")])))
    | none => .ok none
  match kwR with
  | .error e => (.error e, 0)
  | .ok keyword_int =>
    let sortR : Option (PyStr × PyStr) :=
      match splitChar ',' sort with
      | [f, d] =>
        let d2 := pyUpper d
        if d2 = str "ASC" ∨ d2 = str "DESC" then some (f, d2) else none
      | _ => none
    match sortR with
    | none =>
      (.error (mkExc 422 .VALIDATION_FAILED (str "Validation failed")
        (some (.fieldList
          [(str "sort", str "must be in field,ASC|DESC format")]))), 0)
    | some (field, direction) =>
      if field ∉ Rating.attrNames then
        (.error (mkExc 422 .VALIDATION_FAILED (str "Validation failed")
          (some (.fieldList
            [(str "sort", str "unknown sort field " ++ field)]))), 0)
      else if page < 1 then
        (.error (mkExc 422 .VALIDATION_FAILED (str "Validation failed")
          (some (.fieldList [(str "page", str "must be >= 1")]))), 0)
      else if size < 1 then
        (.error (mkExc 422 .VALIDATION_FAILED (str "Validation failed")
          (some (.fieldList [(str "size", str "must be >= 1")]))), 0)
      else
        wrapBare (str "Rating list fetch failed") <|
          let base := db.ratings.filter (fun r => r.book_id == book_id)
          let q1 :=
            match keyword_int with
            | some k => base.filter (fun r => r.score == k)
            | none => base
          let q2 :=
            match minScore with
            | some m => q1.filter (fun r => decide (m ≤ r.score))
            | none => q1
          let q3 :=
            match maxScore with
            | some m => q2.filter (fun r => decide (r.score ≤ m))
            | none => q2
          let sorted :=
            orderBy (ratingColLe field) (direction == str "DESC") q3
          let total := sorted.length
          let rows := takeInt (dropInt sorted ((page - 1) * size)) size
          match pyFloorDiv ((total : Int) + size - 1) size with
          | .error e => (.error e, 2)
          | .ok tp =>
            (.ok { content := rows.map ratingResponseOf, page := page,
                   size := size, totalElements := (total : Int),
                   totalPages := tp, sort := sort, keyword := keyword,
                   minScore := minScore, maxScore := maxScore }, 2)

/-- The JWT payload fields the auth service reads. -/
structure Payload where
  sub : Option PyStr := none
  role : Option PyStr := none
deriving DecidableEq, Repr

/-- The external collaborators of the auth service: jose jwt.decode (an
error models JWTError) and the token builders of app/core/security.py,
which sign a payload of subject and role (their expiry claim is time, not
modelled; freshness of new tokens is therefore a hypothesis where it
matters). -/
structure AuthDeps where
  decode : PyStr → Except Unit Payload
  mkAccess : PyStr → Option PyStr → PyStr
  mkRefresh : PyStr → Option PyStr → PyStr

/-- The redis cache holding the single refresh token per user, as an
association list. -/
abbrev Cache := List (PyStr × PyStr)

/-- redis get. -/
def cacheGet (c : Cache) (k : PyStr) : Option PyStr :=
  (c.find? (fun p => p.1 == k)).map (fun p => p.2)

/-- redis set, overwriting any previous value for the key. -/
def cacheSet (c : Cache) (k v : PyStr) : Cache :=
  if c.any (fun p => p.1 == k) then
    c.map (fun p => if p.1 == k then (k, v) else p)
  else c ++ [(k, v)]

/-- The cache key for the refresh token of a user. -/
def refreshKey (uid : PyStr) : PyStr := str "user:" ++ uid ++ str ":refresh"

/-- The token pair returned by login and refresh. -/
structure TokenPair where
  access_token : PyStr
  refresh_token : PyStr
  token_type : PyStr := str "bearer"
  role : Option PyStr := none
deriving DecidableEq, Repr

/-- app/services/auth_service.py refresh_access_token: decodes the
presented token (JWTError becomes 401 TOKEN_EXPIRED), fails 401
UNAUTHORIZED on a missing or falsy subject, compares the token against the
cached value for that subject - a cache miss, a falsy cached value or any
mismatch is 401 TOKEN_EXPIRED even though the token decoded - and on a
match issues a new access and refresh pair and overwrites the cache entry
with the new refresh token. Returns the result and the cache after the
call. -/
def refresh_access_token (deps : AuthDeps) (cache : Cache)
    (refresh_token : PyStr) : Except PyError TokenPair × Cache :=
  match deps.decode refresh_token with
  | .error _ =>
    (.error (mkExc 401 .TOKEN_EXPIRED
      (str "Refresh Token expired or invalid")), cache)
  | .ok payload =>
    match payload.sub with
    | none =>
      (.error (mkExc 401 .UNAUTHORIZED
        (str "올바르지 않은 Refresh Token 입니다.")), cache)
    | some uid =>
      if uid.isEmpty then
        (.error (mkExc 401 .UNAUTHORIZED
          (str "올바르지 않은 Refresh Token 입니다.")), cache)
      else
        let stored := cacheGet cache (refreshKey uid)
        if !(optStrTruthy stored) || stored ≠ some refresh_token then
          (.error (mkExc 401 .TOKEN_EXPIRED
            (str "Refresh Token expired or invalid")), cache)
        else
          let newAccess := deps.mkAccess uid payload.role
          let newRefresh := deps.mkRefresh uid payload.role
          (.ok { access_token := newAccess, refresh_token := newRefresh,
                 role := payload.role },
           cacheSet cache (refreshKey uid) newRefresh)

/-- Sample book row used by concrete witnesses. -/
def bookA : Book :=
  { id := 1, isbn := str "isbn-1", title := str "Alpha", price := 1000 }

/-- Second sample book row. -/
def bookB : Book :=
  { id := 2, isbn := str "isbn-2", title := str "Beta", price := 2000 }

/-- Sample user row. -/
def userU : User :=
  { id := 1, email := str "u@example.com", hashed_password := str "hu",
    name := str "U" }

/-- Sample admin user row. -/
def userV : User :=
  { id := 2, email := str "v@example.com", hashed_password := str "hv",
    name := str "V", role := str "ADMIN" }

/-- Sample comment row, authored by user 1 on book 1. -/
def commentC : Comment :=
  { id := 1, user_id := 1, book_id := 1, content := str "good book" }

/-- Sample rating rows on book 1 by users 1 and 2. -/
def ratingR : Rating := { id := 1, user_id := 1, book_id := 1, score := 5 }

/-- Second sample rating row. -/
def ratingS : Rating := { id := 2, user_id := 2, book_id := 1, score := 3 }

/-- The concrete database used by witnesses and counterexamples. -/
def dbMain : DB :=
  { users := [userU, userV], books := [bookA, bookB],
    comments := [commentC], ratings := [ratingR, ratingS] }

/-- A list request outcome that was rejected with a typed client error of
the given status before any SQL query was issued. -/
def rejectedBeforeQuery (r : Except PyError α × Nat) (status : Int) : Prop :=
  r.2 = 0 ∧ ∃ e, r.1 = .error (.custom e) ∧ e.status = status

/-- The invariant of the ratings table: at most one rating per pair of user
id and book id. -/
abbrev uniquePairs (rs : List Rating) : Prop :=
  rs.Pairwise (fun a b => ¬(a.user_id = b.user_id ∧ a.book_id = b.book_id))

/-- Projection of a book-listing outcome onto its content, discarding the
echoed request parameters. -/
def booksContent (r : Except PyError BooksPage × Nat) :
    Except PyError (List BookOut) :=
  r.1.map (fun p => p.content)

deriving instance DecidableEq for Except

/-- Concrete auth collaborators for the refresh witness: both token strings
decode to subject 1, and the token builders are deterministic. -/
def depsW : AuthDeps :=
  { decode := fun t =>
      if t = str "tok1" ∨ t = str "tok2" then
        .ok { sub := some (str "1"), role := some (str "USER") }
      else .error (),
    mkAccess := fun s _ => str "acc-" ++ s,
    mkRefresh := fun _ _ => str "tok2" }

/-- Concrete cache for the refresh witness: subject 1 holds tok1. -/
def cacheW : Cache := [(str "user:1:refresh", str "tok1")]

theorem length_insertLe (le : α → α → Bool) (a : α) (l : List α) :
    (insertLe le a l).length = l.length + 1 := by
  induction l with
  | nil => rfl
  | cons b bs ih =>
    simp only [insertLe]
    split
    · simp
    · simp [ih]

theorem length_sortLe (le : α → α → Bool) (l : List α) :
    (sortLe le l).length = l.length := by
  induction l with
  | nil => rfl
  | cons a as ih => simp [sortLe, length_insertLe, ih]

theorem perm_insertLe (le : α → α → Bool) (a : α) (l : List α) :
    (insertLe le a l).Perm (a :: l) := by
  induction l with
  | nil => exact List.Perm.refl _
  | cons b bs ih =>
    simp only [insertLe]
    split
    · exact List.Perm.refl _
    · exact (List.Perm.cons b ih).trans (List.Perm.swap a b bs)

theorem perm_sortLe (le : α → α → Bool) (l : List α) :
    (sortLe le l).Perm l := by
  induction l with
  | nil => exact List.Perm.refl _
  | cons a as ih => exact (perm_insertLe le a (sortLe le as)).trans (ih.cons a)

theorem length_orderBy (le : α → α → Bool) (d : Bool) (l : List α) :
    (orderBy le d l).length = l.length := by
  unfold orderBy; split <;> exact length_sortLe _ _

theorem perm_orderBy (le : α → α → Bool) (d : Bool) (l : List α) :
    (orderBy le d l).Perm l := by
  unfold orderBy; split <;> exact perm_sortLe _ _

/-- C1 counterexample: the comments listing (get_comments_paginated) does
not reject page below one; at page zero it answers 200 with content and
issues its two SQL queries, so the claim that every list endpoint rejects
page or size below one before querying is false on the comments listing. -/
theorem C1_counterexample :
    ((get_comments_paginated dbMain 1 0 10 (str "id,DESC") none).1).isOk
      = true ∧
    (get_comments_paginated dbMain 1 0 10 (str "id,DESC") none).2 = 2 := by
  decide


/-- C1 (amended): page or size below one is rejected with a typed client
error before any SQL query is issued by the admin user listing
(get_users_admin, 422), the ratings listing (get_book_ratings, 422) and the
three book listings (list_books, search_books_api, filter_books_by_price,
400 at the router); the comments listing performs no such validation and
issues its queries regardless (see the counterexample). -/
theorem C1_rejected_before_query
    (db : DB) (page size : Int) (sortS : PyStr)
    (role keyword category mnS mxS : Option PyStr) (book_id : Int)
    (minS maxS : Option Int) (ps ss : PyStr) (p s : Int)
    (hbad : page < 1 ∨ size < 1)
    (hp : pyIntParse ps = some p) (hs : pyIntParse ss = some s)
    (hbad2 : p < 1 ∨ s < 1) :
    rejectedBeforeQuery (get_users_admin db page size sortS role keyword) 422 ∧
    rejectedBeforeQuery
      (get_book_ratings db book_id page size sortS keyword minS maxS) 422 ∧
    rejectedBeforeQuery (list_books db page size sortS) 400 ∧
    rejectedBeforeQuery
      (search_books_api db keyword category page size sortS) 400 ∧
    rejectedBeforeQuery (filter_books_by_price db mnS mxS ps ss sortS) 400 := by
  refine ⟨?_, ?_, ?_, ?_, ?_⟩
  · unfold get_users_admin
    by_cases hpg : page < 1
    · rw [if_pos hpg]; exact ⟨rfl, _, rfl, rfl⟩
    · have hsz : size < 1 := by omega
      rw [if_neg hpg, if_pos hsz]; exact ⟨rfl, _, rfl, rfl⟩
  · cases keyword with
    | none =>
      unfold get_book_ratings
      dsimp only
      repeat' split
      all_goals try exact ⟨rfl, _, rfl, rfl⟩
      all_goals omega
    | some k =>
      unfold get_book_ratings
      dsimp only
      rcases hpk : pyIntParse k with _ | v <;> dsimp only
      · exact ⟨rfl, _, rfl, rfl⟩
      · repeat' split
        all_goals try exact ⟨rfl, _, rfl, rfl⟩
        all_goals omega
  · unfold list_books
    by_cases hpg : page < 1
    · rw [if_pos hpg]; exact ⟨rfl, _, rfl, rfl⟩
    · have hsz : size < 1 ∨ size > 50 := by omega
      rw [if_neg hpg, if_pos hsz]; exact ⟨rfl, _, rfl, rfl⟩
  · unfold search_books_api
    by_cases hpg : page < 1
    · rw [if_pos hpg]; exact ⟨rfl, _, rfl, rfl⟩
    · have hsz : size < 1 ∨ size > 50 := by omega
      rw [if_neg hpg, if_pos hsz]; exact ⟨rfl, _, rfl, rfl⟩
  · unfold filter_books_by_price
    rw [hp, hs]
    have hcond : p < 1 ∨ s < 1 ∨ s > 50 := by omega
    dsimp only
    rw [if_pos hcond]
    exact ⟨rfl, _, rfl, rfl⟩

/-- C1 witness: the amended theorem applied at page zero against the sample
database, with every hypothesis discharged by evaluation. -/
theorem C1_witness :
    ((0 : Int) < 1 ∨ (10 : Int) < 1) ∧
    pyIntParse (str "0") = some 0 ∧ pyIntParse (str "10") = some 10 ∧
    (rejectedBeforeQuery (get_users_admin dbMain 0 10 (str "id,ASC") none none)
        422 ∧
     rejectedBeforeQuery
       (get_book_ratings dbMain 1 0 10 (str "id,ASC") none none none) 422 ∧
     rejectedBeforeQuery (list_books dbMain 0 10 (str "id,ASC")) 400 ∧
     rejectedBeforeQuery
       (search_books_api dbMain none none 0 10 (str "id,ASC")) 400 ∧
     rejectedBeforeQuery
       (filter_books_by_price dbMain none none (str "0") (str "10")
         (str "id,ASC")) 400) :=
  ⟨by decide, by decide, by decide,
   C1_rejected_before_query dbMain 0 10 (str "id,ASC") none none none none
     none 1 none none (str "0") (str "10") 0 10 (by decide) (by decide)
     (by decide) (by decide)⟩

/-- C2 counterexample: a sort string without a comma passed to the comments
listing escapes as an untyped ValueError (from tuple unpacking), outside
the typed CustomException envelope, so the claim that no input to a service
function escapes as an untyped exception is false. -/
theorem C2_counterexample :
    (get_comments_paginated dbMain 1 1 10 (str "id") none).1
      = .error PyError.valueError ∧
    PyError.valueError.isUntyped = true := by
  decide

/-- C2 (amended): the handler renders every CustomException into the fixed
envelope preserving status, code, message and details, and the admin user
listing and the ratings listing surface every failure as a typed
CustomException; but the comments listing lets a malformed sort parameter
escape as an untyped exception outside the envelope. -/
theorem C2_typed_envelope_except_comments_sort :
    (∀ ts path e, custom_exception_handler ts path e =
      { timestamp := ts, path := path, status := e.status, code := e.code,
        message := e.message, details := e.details }) ∧
    (∀ db page size sortS role kw e,
      (get_users_admin db page size sortS role kw).1 = .error e →
      e.isUntyped = false) ∧
    (∀ db bid page size sortS kw mn mx e,
      (get_book_ratings db bid page size sortS kw mn mx).1 = .error e →
      e.isUntyped = false) ∧
    (get_comments_paginated dbMain 1 1 10 (str "id") none).1
      = .error PyError.valueError := by
  refine ⟨fun ts path e => rfl, ?_, ?_, by decide⟩
  · intro db page size sortS role kw e he
    unfold get_users_admin at he
    dsimp only at he
    repeat' split at he
    all_goals simp at he
    all_goals subst he
    all_goals rfl
  · intro db bid page size sortS kw mn mx e he
    cases kw with
    | none =>
      unfold get_book_ratings wrapBare at he
      dsimp only at he
      repeat' split at he
      all_goals simp at he
      all_goals subst he
      all_goals rfl
    | some k =>
      unfold get_book_ratings wrapBare at he
      dsimp only at he
      rcases hpk : pyIntParse k with _ | v <;> rw [hpk] at he <;>
        dsimp only at he
      · simp at he
        subst he
        rfl
      · repeat' split at he
        all_goals simp at he
        all_goals subst he
        all_goals rfl

/-- C2 witness: the typed-failure clause of the amended theorem applied to
a concrete failing request against the sample database. -/
theorem C2_witness :
    (get_users_admin dbMain 0 10 (str "id,ASC") none none).1
      = .error (mkExc 422 .VALIDATION_FAILED (str "Validation failed")
          (some (.fieldList [(str "page", str "must be >= 1")]))) ∧
    (mkExc 422 .VALIDATION_FAILED (str "Validation failed")
      (some (.fieldList [(str "page", str "must be >= 1")]))).isUntyped
        = false :=
  ⟨by decide,
   C2_typed_envelope_except_comments_sort.2.1 dbMain 0 10 (str "id,ASC")
     none none _ (by decide)⟩

theorem splitChar_eq_single (sep : Char) (a : PyStr) (ha : sep ∉ a) :
    splitChar sep a = [a] := by
  induction a with
  | nil => rfl
  | cons c cs ih =>
    have hc : ¬(c = sep) := fun h => ha (by simp [h])
    have hcs : sep ∉ cs := fun h => ha (List.mem_cons_of_mem c h)
    simp [splitChar, ih hcs, hc]

theorem splitChar_append (sep : Char) (a b : PyStr) (ha : sep ∉ a) :
    splitChar sep (a ++ sep :: b) = a :: splitChar sep b := by
  induction a with
  | nil => simp [splitChar]
  | cons c cs ih =>
    have hc : ¬(c = sep) := fun h => ha (by simp [h])
    have hcs : sep ∉ cs := fun h => ha (List.mem_cons_of_mem c h)
    simp only [List.cons_append, splitChar, List.append_eq]
    rw [ih hcs, if_neg hc]

theorem books_ok_iff_of_dir (db : DB) (p s : Int) (field d1 d2 : PyStr)
    (hf : ',' ∉ field) (hd1 : ',' ∉ d1) (hd2 : ',' ∉ d2)
    (hdir : (pyUpper d1 == str "DESC") = (pyUpper d2 == str "DESC"))
    (l : List BookOut) :
    booksContent (get_books_paginated db p s (field ++ ',' :: d1)) = .ok l
      ↔ booksContent (get_books_paginated db p s (field ++ ',' :: d2))
          = .ok l := by
  unfold get_books_paginated booksContent wrap500 pyFloorDiv mkExc
  rw [splitChar_append ',' field d1 hf, splitChar_eq_single ',' d1 hd1,
      splitChar_append ',' field d2 hf, splitChar_eq_single ',' d2 hd2]
  dsimp only
  by_cases hfa : field ∈ Book.attrNames <;> by_cases hs0 : s = 0 <;>
    simp [hfa, hs0, hdir, Except.map]

/-- C3 counterexample: the ratings listing does not treat a garbled
direction as ascending; with direction FOO it rejects the request with 422
VALIDATION_FAILED, so the claim is false on get_book_ratings. -/
theorem C3_counterexample :
    (get_book_ratings dbMain 1 1 10 (str "id,FOO") none none none).1
      = .error (mkExc 422 .VALIDATION_FAILED (str "Validation failed")
          (some (.fieldList
            [(str "sort", str "must be in field,ASC|DESC format")]))) := by
  decide

/-- C3 (amended): the direction comparison of the book listing is
case-insensitive (two directions with the same upper-case image yield the
same content) and any direction whose upper-case image is not DESC is
treated as ascending; the ratings listing instead rejects any direction
that is not ASC or DESC case-insensitively with 422 VALIDATION_FAILED
before issuing any query, rather than sorting ascending. -/
theorem C3_direction_semantics
    (db : DB) (p s : Int) (field d d1 d2 dR : PyStr) (bid : Int)
    (kw : Option PyStr) (mn mx : Option Int)
    (hf : ',' ∉ field) (hd : ',' ∉ d) (hd1 : ',' ∉ d1) (hd2 : ',' ∉ d2)
    (hdR : ',' ∉ dR)
    (hcase : pyUpper d1 = pyUpper d2)
    (hnd : pyUpper d ≠ str "DESC")
    (hRa : pyUpper dR ≠ str "ASC") (hRd : pyUpper dR ≠ str "DESC") :
    (∀ l, booksContent (get_books_paginated db p s (field ++ ',' :: d1))
            = .ok l
        ↔ booksContent (get_books_paginated db p s (field ++ ',' :: d2))
            = .ok l) ∧
    (∀ l, booksContent (get_books_paginated db p s (field ++ ',' :: d))
            = .ok l
        ↔ booksContent
            (get_books_paginated db p s (field ++ ',' :: str "ASC"))
            = .ok l) ∧
    rejectedBeforeQuery
      (get_book_ratings db bid p s (field ++ ',' :: dR) kw mn mx) 422 := by
  refine ⟨?_, ?_, ?_⟩
  · intro l
    exact books_ok_iff_of_dir db p s field d1 d2 hf hd1 hd2 (by rw [hcase]) l
  · intro l
    refine books_ok_iff_of_dir db p s field d (str "ASC") hf hd (by decide)
      ?_ l
    rw [beq_eq_false_iff_ne.mpr hnd]
    exact (by decide : (pyUpper (str "ASC") == str "DESC") = false).symm
  · have hcond : ¬(pyUpper dR = str "ASC" ∨ pyUpper dR = str "DESC") :=
      not_or.mpr ⟨hRa, hRd⟩
    cases kw with
    | none =>
      unfold get_book_ratings
      dsimp only
      rw [splitChar_append ',' field dR hf, splitChar_eq_single ',' dR hdR]
      dsimp only
      rw [if_neg hcond]
      exact ⟨rfl, _, rfl, rfl⟩
    | some k =>
      unfold get_book_ratings
      dsimp only
      rcases hpk : pyIntParse k with _ | v <;> dsimp only
      · exact ⟨rfl, _, rfl, rfl⟩
      · rw [splitChar_append ',' field dR hf, splitChar_eq_single ',' dR hdR]
        dsimp only
        rw [if_neg hcond]
        exact ⟨rfl, _, rfl, rfl⟩

/-- C3 witness: the amended theorem applied with the lower-case direction
desc, the garbled direction FOO and the sample database. -/
theorem C3_witness :
    (',' ∉ str "id") ∧ pyUpper (str "desc") = pyUpper (str "DESC") ∧
    pyUpper (str "asc") ≠ str "DESC" ∧
    pyUpper (str "FOO") ≠ str "ASC" ∧ pyUpper (str "FOO") ≠ str "DESC" ∧
    ((∀ l, booksContent
            (get_books_paginated dbMain 1 10 (str "id" ++ ',' :: str "desc"))
            = .ok l
        ↔ booksContent
            (get_books_paginated dbMain 1 10 (str "id" ++ ',' :: str "DESC"))
            = .ok l) ∧
     (∀ l, booksContent
            (get_books_paginated dbMain 1 10 (str "id" ++ ',' :: str "asc"))
            = .ok l
        ↔ booksContent
            (get_books_paginated dbMain 1 10 (str "id" ++ ',' :: str "ASC"))
            = .ok l) ∧
     rejectedBeforeQuery
       (get_book_ratings dbMain 1 1 10 (str "id" ++ ',' :: str "FOO")
         none none none) 422) :=
  ⟨by decide, by decide, by decide, by decide, by decide,
   C3_direction_semantics dbMain 1 10 (str "id") (str "asc") (str "desc")
     (str "DESC") (str "FOO") 1 none none none (by decide) (by decide)
     (by decide) (by decide) (by decide) (by decide) (by decide) (by decide)
     (by decide)⟩

theorem fdiv_natCast (m n : Nat) :
    Int.fdiv ((m : Nat) : Int) ((n : Nat) : Int) = ((m / n : Nat) : Int) := by
  cases m with
  | zero =>
    show Int.fdiv 0 _ = _
    simp [Int.fdiv, Nat.zero_div]
  | succ k => rfl

theorem natCeil_div (t n : Nat) (hn : 0 < n) :
    (((t + n - 1) / n : Nat) : Int) = ⌈(t : ℚ) / (n : ℚ)⌉ := by
  have hq : (0 : ℚ) < (n : ℚ) := by exact_mod_cast hn
  obtain ⟨N, hN⟩ : ∃ N, (t + n - 1) / n = N := ⟨_, rfl⟩
  obtain ⟨R, hRdef⟩ : ∃ R, (t + n - 1) % n = R := ⟨_, rfl⟩
  have h1 := Nat.div_add_mod (t + n - 1) n
  rw [hN, hRdef] at h1
  have h2 : R < n := hRdef ▸ Nat.mod_lt _ hn
  rw [hN]
  have h1Q : n * N + R + 1 = t + n := by omega
  have hQ : (n : ℚ) * N + R + 1 = (t : ℚ) + n := by exact_mod_cast h1Q
  have hRq : (R : ℚ) < n := by exact_mod_cast h2
  have hR0 : (0 : ℚ) ≤ (R : ℚ) := by positivity
  obtain ⟨P, hP⟩ : ∃ P, n * N = P := ⟨_, rfl⟩
  rw [hP] at h1Q
  have htP : t ≤ P := by omega
  have htQ : (t : ℚ) ≤ (P : ℚ) := by exact_mod_cast htP
  have hPQ : (P : ℚ) = (n : ℚ) * N := by rw [← hP]; push_cast; ring
  symm
  rw [Int.ceil_eq_iff]
  have hc : (((N : Nat) : Int) : ℚ) = (N : ℚ) := by push_cast; ring
  rw [hc]
  constructor
  · rw [lt_div_iff₀ hq]
    nlinarith [hQ, hRq, hR0, hPQ]
  · rw [div_le_iff₀ hq]
    nlinarith [htQ, hPQ]

theorem fdiv_ceil_int (t : Nat) (s : Int) (hs : 1 ≤ s) :
    Int.fdiv ((t : Int) + s - 1) s = ⌈(t : ℚ) / (s : ℚ)⌉ := by
  obtain ⟨n, rfl⟩ : ∃ n : Nat, s = (n : Int) := ⟨s.toNat, by omega⟩
  have hn : 0 < n := by exact_mod_cast hs
  have hcast : (t : Int) + (n : Int) - 1 = ((t + n - 1 : Nat) : Int) := by
    omega
  have hqc : (((n : Int)) : ℚ) = (n : ℚ) := by push_cast; ring
  rw [hcast, fdiv_natCast, hqc]
  exact natCeil_div t n hn

theorem pyFloorDiv_eq_ok (a b : Int) (hb : ¬ b = 0) :
    pyFloorDiv a b = .ok (a.fdiv b) := by
  simp [pyFloorDiv, hb]

/-- C4: whenever the book listing or the ratings listing successfully
returns a page with page and size at least one, totalPages equals the
ceiling of totalElements over size - the code computes
(total + size - 1) // size, proved equal to the ceiling for every total at
least zero and size at least one in the last clause - and the content list
never exceeds size. -/
theorem C4_totalPages_ceiling
    (db : DB) (page size : Int) (sortB sortR : PyStr) (bid : Int)
    (kw : Option PyStr) (mn mx : Option Int) (rB : BooksPage)
    (rR : RatingsPage)
    (hpage : 1 ≤ page) (hsize : 1 ≤ size)
    (hB : (get_books_paginated db page size sortB).1 = .ok rB)
    (hR : (get_book_ratings db bid page size sortR kw mn mx).1 = .ok rR) :
    (rB.totalPages = ⌈(rB.totalElements : ℚ) / (rB.size : ℚ)⌉ ∧
     rB.content.length ≤ size.toNat) ∧
    (rR.totalPages = ⌈(rR.totalElements : ℚ) / (rR.size : ℚ)⌉ ∧
     rR.content.length ≤ size.toNat) ∧
    (∀ (total : Nat) (s : Int), 1 ≤ s →
      Int.fdiv ((total : Int) + s - 1) s = ⌈(total : ℚ) / (s : ℚ)⌉) := by
  have hb : ∀ m : Nat, (((m : Nat) : Int) : ℚ) = ((m : Nat) : ℚ) := by
    intro m; push_cast; ring
  refine ⟨?_, ?_, fun total s hs => fdiv_ceil_int total s hs⟩
  · unfold get_books_paginated at hB
    dsimp only at hB
    repeat' split at hB
    all_goals try (rename_i e heqdiv; rw [pyFloorDiv_eq_ok _ _ (by omega : ¬(size = 0))] at heqdiv; injection heqdiv; try (rename_i htp; subst htp))
    all_goals dsimp only [wrap500, mkExc] at hB
    all_goals injection hB
    all_goals rename_i h
    all_goals subst h
    all_goals refine ⟨?_, ?_⟩
    all_goals try (dsimp only; rw [List.length_map]; unfold takeInt; rw [if_neg (by omega : ¬(size < 0))]; rw [List.length_take]; exact min_le_left _ _)
    all_goals (dsimp only; rw [hb]; exact fdiv_ceil_int _ size hsize)
  · unfold get_book_ratings at hR
    rcases kw with _ | k <;> dsimp only at hR
    · rcases mn with _ | mnv <;> rcases mx with _ | mxv <;> dsimp only at hR <;>
        repeat' split at hR
      all_goals try (rename_i e heqdiv; rw [pyFloorDiv_eq_ok _ _ (by omega : ¬(size = 0))] at heqdiv; injection heqdiv; try (rename_i htp; subst htp))
      all_goals dsimp only [wrapBare, mkExc] at hR
      all_goals injection hR
      all_goals rename_i h
      all_goals subst h
      all_goals refine ⟨?_, ?_⟩
      all_goals try (dsimp only; rw [List.length_map]; unfold takeInt; rw [if_neg (by omega : ¬(size < 0))]; rw [List.length_take]; exact min_le_left _ _)
      all_goals (dsimp only; rw [hb]; exact fdiv_ceil_int _ size hsize)
    · rcases hpk : pyIntParse k with _ | v0 <;> rw [hpk] at hR <;>
        dsimp only at hR
      · exact absurd hR (by simp)
      · rcases mn with _ | mnv <;> rcases mx with _ | mxv <;>
          dsimp only at hR <;> repeat' split at hR
        all_goals try (rename_i e heqdiv; rw [pyFloorDiv_eq_ok _ _ (by omega : ¬(size = 0))] at heqdiv; injection heqdiv; try (rename_i htp; subst htp))
        all_goals dsimp only [wrapBare, mkExc] at hR
        all_goals injection hR
        all_goals rename_i h
        all_goals subst h
        all_goals refine ⟨?_, ?_⟩
        all_goals try (dsimp only; rw [List.length_map]; unfold takeInt; rw [if_neg (by omega : ¬(size < 0))]; rw [List.length_take]; exact min_le_left _ _)
        all_goals (dsimp only; rw [hb]; exact fdiv_ceil_int _ size hsize)

/-- C4 witness: the theorem applied to concrete successful pages of both
listings over the sample database, hypotheses discharged by evaluation. -/
theorem C4_witness :
    ((1 : Int) ≤ 1) ∧ ((1 : Int) ≤ 10) ∧
    (get_books_paginated dbMain 1 10 (str "id,ASC")).1
      = .ok { content := [serialize_book bookA, serialize_book bookB],
              page := 1, size := 10, totalElements := 2, totalPages := 1,
              sort := str "id,ASC" } ∧
    (get_book_ratings dbMain 1 1 10 (str "id,DESC") none none none).1
      = .ok { content := [ratingResponseOf ratingS, ratingResponseOf ratingR],
              page := 1, size := 10, totalElements := 2, totalPages := 1,
              sort := str "id,DESC", keyword := none, minScore := none,
              maxScore := none } ∧
    (((1 : Int) = ⌈((2 : Int) : ℚ) / ((10 : Int) : ℚ)⌉ ∧
      [serialize_book bookA, serialize_book bookB].length ≤ (10 : Int).toNat) ∧
     ((1 : Int) = ⌈((2 : Int) : ℚ) / ((10 : Int) : ℚ)⌉ ∧
      [ratingResponseOf ratingS, ratingResponseOf ratingR].length
        ≤ (10 : Int).toNat) ∧
     (∀ (total : Nat) (s : Int), 1 ≤ s →
       Int.fdiv ((total : Int) + s - 1) s = ⌈(total : ℚ) / (s : ℚ)⌉)) :=
  ⟨by decide, by decide, by decide, by decide,
   C4_totalPages_ceiling dbMain 1 10 (str "id,ASC") (str "id,DESC") 1 none
     none none
     { content := [serialize_book bookA, serialize_book bookB],
       page := 1, size := 10, totalElements := 2, totalPages := 1,
       sort := str "id,ASC" }
     { content := [ratingResponseOf ratingS, ratingResponseOf ratingR],
       page := 1, size := 10, totalElements := 2, totalPages := 1,
       sort := str "id,DESC", keyword := none, minScore := none,
       maxScore := none }
     (by decide) (by decide) (by decide) (by decide)⟩

/-- C5: at most one rating per pair of user and book is preserved by every
rating operation, the duplicate check rejects with 409 STATE_CONFLICT
leaving the state unchanged, and a valid fresh rating is inserted exactly
once. The duplicate clause assumes the book row exists, as guaranteed by
the foreign-key constraint of the ratings table for every reachable state
(the code checks book existence before the duplicate check, so an orphaned
rating would produce 404 first). -/
theorem C5_rating_uniqueness
    (db : DB) (uid bid score nid : Int) :
    ((∃ b ∈ db.books, b.id = bid) →
      (∃ r ∈ db.ratings, r.user_id = uid ∧ r.book_id = bid) →
      create_rating db uid bid score nid
        = (.error (mkExc 409 .STATE_CONFLICT
            (str "이미 이 책에 대한 평점을 등록했습니다.")
            (some (.dict [(str "book_id", .i bid)]))), db)) ∧
    ((∃ b ∈ db.books, b.id = bid) →
      (¬ ∃ r ∈ db.ratings, r.user_id = uid ∧ r.book_id = bid) →
      1 ≤ score → score ≤ 5 →
      create_rating db uid bid score nid
        = (.ok { id := nid, user_id := uid, book_id := bid, score := score },
           { db with
             ratings := db.ratings
               ++ [{ id := nid, user_id := uid, book_id := bid,
                     score := score }] })) ∧
    (uniquePairs db.ratings →
      uniquePairs (create_rating db uid bid score nid).2.ratings ∧
      uniquePairs (update_rating db uid bid score).2.ratings ∧
      uniquePairs (delete_rating db uid bid).2.ratings) := by
  refine ⟨?_, ?_, ?_⟩
  · rintro ⟨b, hb, hbid⟩ ⟨r, hr, hru, hrb⟩
    unfold create_rating
    have h1 : db.books.any (fun x => x.id == bid) = true :=
      List.any_eq_true.mpr ⟨b, hb, by simp [hbid]⟩
    have h2 : db.ratings.any
        (fun x => x.user_id == uid && x.book_id == bid) = true :=
      List.any_eq_true.mpr ⟨r, hr, by simp [hru, hrb]⟩
    simp only [h1, h2, Bool.not_true]
    rfl
  · rintro ⟨b, hb, hbid⟩ hnodup hs1 hs5
    unfold create_rating
    have h1 : db.books.any (fun x => x.id == bid) = true :=
      List.any_eq_true.mpr ⟨b, hb, by simp [hbid]⟩
    have h2 : db.ratings.any
        (fun x => x.user_id == uid && x.book_id == bid) = false := by
      rw [List.any_eq_false]
      intro x hx
      simp only [Bool.and_eq_true, beq_iff_eq, not_and]
      intro hxu hxb
      exact hnodup ⟨x, hx, hxu, hxb⟩
    simp only [h1, h2, Bool.not_true]
    rw [if_neg (by omega : ¬(score < 1 ∨ score > 5))]
    rfl
  · intro huniq
    refine ⟨?_, ?_, ?_⟩
    · unfold create_rating
      split
      · exact huniq
      · split
        · exact huniq
        · split
          · exact huniq
          · rename_i hbook hdup hscore
            dsimp only
            refine List.pairwise_append.mpr
              ⟨huniq, List.pairwise_singleton _ _, ?_⟩
            intro a ha b hb
            simp only [List.mem_singleton] at hb
            subst hb
            rintro ⟨hau, hab⟩
            dsimp only at hau hab
            exact hdup (List.any_eq_true.mpr ⟨a, ha, by simp [hau, hab]⟩)
    · unfold update_rating
      split
      · exact huniq
      · split
        · exact huniq
        · rename_i rating hfind hscore
          dsimp only
          have hu : ∀ x : Rating,
              (if x.id == rating.id then { x with score := score }
               else x).user_id = x.user_id := by
            intro x; split <;> rfl
          have hk : ∀ x : Rating,
              (if x.id == rating.id then { x with score := score }
               else x).book_id = x.book_id := by
            intro x; split <;> rfl
          refine huniq.map _ ?_
          intro a c hac he
          exact hac ⟨by rw [← hu a, ← hu c]; exact he.1,
                     by rw [← hk a, ← hk c]; exact he.2⟩
    · unfold delete_rating
      split
      · exact huniq
      · dsimp only
        exact huniq.sublist (List.filter_sublist _)

/-- C5 witness: the duplicate clause at the existing rating of user 1 on
book 1, the insert clause and the preservation clause at a fresh rating by
user 3, all against the sample database. -/
theorem C5_witness :
    (∃ b ∈ dbMain.books, b.id = 1) ∧
    (∃ r ∈ dbMain.ratings, r.user_id = 1 ∧ r.book_id = 1) ∧
    (¬ ∃ r ∈ dbMain.ratings, r.user_id = 3 ∧ r.book_id = 1) ∧
    uniquePairs dbMain.ratings ∧
    create_rating dbMain 1 1 4 3
      = (.error (mkExc 409 .STATE_CONFLICT
          (str "이미 이 책에 대한 평점을 등록했습니다.")
          (some (.dict [(str "book_id", .i 1)]))), dbMain) ∧
    create_rating dbMain 3 1 4 3
      = (.ok { id := 3, user_id := 3, book_id := 1, score := 4 },
         { dbMain with
           ratings := dbMain.ratings
             ++ [{ id := 3, user_id := 3, book_id := 1, score := 4 }] }) ∧
    uniquePairs (create_rating dbMain 3 1 4 3).2.ratings :=
  ⟨by decide, by decide, by decide, by decide,
   (C5_rating_uniqueness dbMain 1 1 4 3).1 (by decide) (by decide),
   (C5_rating_uniqueness dbMain 3 1 4 3).2.1 (by decide) (by decide)
     (by decide) (by decide),
   ((C5_rating_uniqueness dbMain 3 1 4 3).2.2 (by decide)).1⟩

theorem cacheGet_cacheSet_self (c : Cache) (k v : PyStr) :
    cacheGet (cacheSet c k v) k = some v := by
  induction c with
  | nil => simp [cacheSet, cacheGet, List.find?]
  | cons p ps ih =>
    by_cases hp : (p.1 == k) = true
    · simp only [cacheSet, List.any_cons, hp, Bool.true_or, if_true,
        List.map_cons, if_pos hp]
      simp [cacheGet, List.find?]
    · by_cases hany : (ps.any (fun q => q.1 == k)) = true
      · simp only [cacheSet, List.any_cons, hp, Bool.false_or, hany, if_true,
        List.map_cons, if_neg hp]
        have ih2 := ih
        simp only [cacheSet, hany, if_true] at ih2
        simp [cacheGet, List.find?, hp] at ih2 ⊢
        exact ih2
      · simp only [cacheSet, List.any_cons, hp, Bool.false_or, hany,
          if_false, List.cons_append]
        have ih2 := ih
        simp only [cacheSet, hany, if_false] at ih2
        simp [cacheGet, List.find?, hp] at ih2 ⊢
        exact ih2

/-- C6: for a refresh token that decodes with a nonempty subject, a cache
miss or any mismatch with the cached value fails 401 TOKEN_EXPIRED with the
cache unchanged even though the signature verified; a match issues a fresh
access and refresh pair and overwrites the cache entry with the new refresh
token, so that (whenever the newly issued token differs from the presented
one, which holds since tokens embed a fresh expiry) presenting the same
token again fails 401 TOKEN_EXPIRED. -/
theorem C6_refresh_rotation
    (deps : AuthDeps) (cache : Cache) (token : PyStr) (payload : Payload)
    (uid : PyStr)
    (hdec : deps.decode token = .ok payload)
    (hsub : payload.sub = some uid)
    (huid : uid ≠ []) (htok : token ≠ []) :
    ((cacheGet cache (refreshKey uid) = none ∨
      cacheGet cache (refreshKey uid) ≠ some token) →
      refresh_access_token deps cache token
        = (.error (mkExc 401 .TOKEN_EXPIRED
            (str "Refresh Token expired or invalid")), cache)) ∧
    (cacheGet cache (refreshKey uid) = some token →
      refresh_access_token deps cache token
        = (.ok { access_token := deps.mkAccess uid payload.role,
                 refresh_token := deps.mkRefresh uid payload.role,
                 token_type := str "bearer", role := payload.role },
           cacheSet cache (refreshKey uid)
             (deps.mkRefresh uid payload.role))) ∧
    (cacheGet cache (refreshKey uid) = some token →
      deps.mkRefresh uid payload.role ≠ token →
      (refresh_access_token deps
         (cacheSet cache (refreshKey uid)
           (deps.mkRefresh uid payload.role)) token).1
        = .error (mkExc 401 .TOKEN_EXPIRED
            (str "Refresh Token expired or invalid"))) := by
  have huidE : uid.isEmpty = false := by
    cases uid with
    | nil => exact absurd rfl huid
    | cons a as => rfl
  refine ⟨?_, ?_, ?_⟩
  · intro hcase
    unfold refresh_access_token
    rw [hdec]
    dsimp only
    rw [hsub]
    dsimp only
    rw [huidE]
    rcases hst : cacheGet cache (refreshKey uid) with _ | s
    · simp [optStrTruthy]
    · rcases hcase with hmiss | hne
      · rw [hst] at hmiss
        exact absurd hmiss (by simp)
      · rw [hst] at hne
        have hsne : ¬((some s : Option PyStr) = some token) := hne
        simp [optStrTruthy, hsne]
  · intro hmatch
    unfold refresh_access_token
    rw [hdec]
    dsimp only
    rw [hsub]
    dsimp only
    rw [huidE]
    rw [hmatch]
    have htokE : token.isEmpty = false := by
      cases token with
      | nil => exact absurd rfl htok
      | cons a as => rfl
    simp [optStrTruthy, htokE]
  · intro hmatch hneq
    unfold refresh_access_token
    rw [hdec]
    dsimp only
    rw [hsub]
    dsimp only
    rw [huidE]
    rw [cacheGet_cacheSet_self]
    have hsne : ¬((some (deps.mkRefresh uid payload.role) : Option PyStr)
        = some token) := by
      simp [hneq]
    simp [optStrTruthy, hsne]

/-- C6 witness: rotation on a concrete matching cache entry, after which
the presented token no longer succeeds. -/
theorem C6_witness :
    depsW.decode (str "tok1")
      = .ok { sub := some (str "1"), role := some (str "USER") } ∧
    (some (str "1") : Option PyStr) = some (str "1") ∧
    str "1" ≠ ([] : PyStr) ∧ str "tok1" ≠ ([] : PyStr) ∧
    cacheGet cacheW (refreshKey (str "1")) = some (str "tok1") ∧
    depsW.mkRefresh (str "1") (some (str "USER")) ≠ str "tok1" ∧
    refresh_access_token depsW cacheW (str "tok1")
      = (.ok { access_token := depsW.mkAccess (str "1") (some (str "USER")),
               refresh_token := depsW.mkRefresh (str "1") (some (str "USER")),
               token_type := str "bearer", role := some (str "USER") },
         cacheSet cacheW (refreshKey (str "1"))
           (depsW.mkRefresh (str "1") (some (str "USER")))) ∧
    (refresh_access_token depsW
       (cacheSet cacheW (refreshKey (str "1"))
         (depsW.mkRefresh (str "1") (some (str "USER"))))
       (str "tok1")).1
      = .error (mkExc 401 .TOKEN_EXPIRED
          (str "Refresh Token expired or invalid")) :=
  ⟨by decide, by decide, by decide, by decide, by decide, by decide,
   (C6_refresh_rotation depsW cacheW (str "tok1")
      { sub := some (str "1"), role := some (str "USER") } (str "1")
      (by decide) (by decide) (by decide) (by decide)).2.1 (by decide),
   (C6_refresh_rotation depsW cacheW (str "tok1")
      { sub := some (str "1"), role := some (str "USER") } (str "1")
      (by decide) (by decide) (by decide) (by decide)).2.2 (by decide)
     (by decide)⟩

theorem find?_map_update (l : List Comment) (cid : Int) (c : Comment)
    (s : PyStr) (h : l.find? (fun x => x.id == cid) = some c) :
    (l.map (fun x => if x.id == cid then { x with content := s }
                     else x)).find? (fun x => x.id == cid)
      = some { c with content := s } := by
  induction l with
  | nil => simp [List.find?] at h
  | cons a as ih =>
    by_cases ha : ((fun x : Comment => x.id == cid) a) = true
    · rw [@List.find?_cons_of_pos _ (fun x : Comment => x.id == cid) a as
        ha] at h
      injection h with h1
      subst h1
      rw [List.map_cons, if_pos ha]
      exact @List.find?_cons_of_pos _ (fun x : Comment => x.id == cid) _ _ ha
    · rw [@List.find?_cons_of_neg _ (fun x : Comment => x.id == cid) a as
        ha] at h
      rw [List.map_cons, if_neg ha]
      rw [@List.find?_cons_of_neg _ (fun x : Comment => x.id == cid) _ _ ha]
      exact ih h

/-- C7: on an existing comment, update_comment rejects a non-author caller
with 403 leaving the state unchanged; an author update with no content
field is a no-op success returning the unchanged row; an author update with
whitespace-only content fails 422 leaving the state unchanged; an author
update with non-blank content replaces the content of that comment. -/
theorem C7_update_comment
    (db : DB) (cid uid : Int) (c : Comment) (s : PyStr)
    (hfind : db.comments.find? (fun x => x.id == cid) = some c) :
    (∀ data, c.user_id ≠ uid →
      update_comment db cid uid data
        = (.error (mkExc 403 .FORBIDDEN (str "수정 권한 없음")
            (some (.dict [(str "comment_id", .i cid)]))), db)) ∧
    (c.user_id = uid →
      update_comment db cid uid { content := none } = (.ok c, db)) ∧
    (c.user_id = uid → trimWs s = [] →
      update_comment db cid uid { content := some s }
        = (.error (mkExc 422 .VALIDATION_FAILED (str "Validation failed")
            (some (.fieldList
              [(str "content", str "최소 1자 이상 입력해야 합니다.")]))),
           db)) ∧
    (c.user_id = uid → trimWs s ≠ [] →
      (update_comment db cid uid { content := some s }).1
          = .ok { c with content := s } ∧
      (update_comment db cid uid { content := some s }).2.comments.find?
          (fun x => x.id == cid) = some { c with content := s }) := by
  refine ⟨?_, ?_, ?_, ?_⟩
  · intro data hne
    unfold update_comment
    rw [hfind]
    dsimp only
    rw [if_pos hne]
  · intro heq
    unfold update_comment
    rw [hfind]
    dsimp only
    rw [if_neg (fun hne => hne heq)]
  · intro heq htrim
    unfold update_comment
    rw [hfind]
    dsimp only
    rw [if_neg (fun hne => hne heq)]
    rw [if_pos (by rw [htrim]; rfl : (trimWs s).length = 0)]
  · intro heq htrim
    unfold update_comment
    rw [hfind]
    dsimp only
    rw [if_neg (fun hne => hne heq)]
    rw [if_neg (fun hlen => htrim (List.length_eq_zero.mp hlen))]
    exact ⟨rfl, find?_map_update db.comments cid c s hfind⟩

/-- C7 witness: the four clauses applied to the sample comment of user 1,
with a non-author caller, a missing content field, whitespace-only content
and a real replacement. -/
theorem C7_witness :
    dbMain.comments.find? (fun x => x.id == 1) = some commentC ∧
    commentC.user_id ≠ 2 ∧ commentC.user_id = 1 ∧
    trimWs (str "  ") = [] ∧ trimWs (str "better") ≠ [] ∧
    update_comment dbMain 1 2 { content := some (str "hack") }
      = (.error (mkExc 403 .FORBIDDEN (str "수정 권한 없음")
          (some (.dict [(str "comment_id", .i 1)]))), dbMain) ∧
    update_comment dbMain 1 1 { content := none } = (.ok commentC, dbMain) ∧
    update_comment dbMain 1 1 { content := some (str "  ") }
      = (.error (mkExc 422 .VALIDATION_FAILED (str "Validation failed")
          (some (.fieldList
            [(str "content", str "최소 1자 이상 입력해야 합니다.")]))),
         dbMain) ∧
    ((update_comment dbMain 1 1 { content := some (str "better") }).1
        = .ok { commentC with content := str "better" } ∧
     (update_comment dbMain 1 1
         { content := some (str "better") }).2.comments.find?
         (fun x => x.id == 1)
       = some { commentC with content := str "better" }) :=
  ⟨by decide, by decide, by decide, by decide, by decide,
   (C7_update_comment dbMain 1 2 commentC (str "x") (by decide)).1
     { content := some (str "hack") } (by decide),
   (C7_update_comment dbMain 1 1 commentC (str "x") (by decide)).2.1
     (by decide),
   (C7_update_comment dbMain 1 1 commentC (str "  ") (by decide)).2.2.1
     (by decide) (by decide),
   (C7_update_comment dbMain 1 1 commentC (str "better") (by decide)).2.2.2
     (by decide) (by decide)⟩

/-- C8 counterexample: an ADMIN caller who is not the author receives 403
FORBIDDEN from the comment deletion endpoint, so the claim that deletion by
a non-author admin succeeds is false on the code. -/
theorem C8_counterexample :
    remove_comment dbMain 1 { id := 2, role := str "ADMIN" }
      = (.error (mkExc 403 .FORBIDDEN (str "삭제 권한 없음")
          (some (.dict [(str "comment_id", .i 1)]))), dbMain) := by
  decide

/-- C8 (amended): a comment can be deleted only by its author; the caller
role is never consulted, so any non-author caller - ADMIN included - fails
403 FORBIDDEN with the state unchanged, while the author succeeds and the
row is removed. -/
theorem C8_delete_only_author
    (db : DB) (cid : Int) (u : AuthUser) (c : Comment)
    (hfind : db.comments.find? (fun x => x.id == cid) = some c) :
    (u.id = c.user_id →
      (remove_comment db cid u).1 = .ok [(str "message", str "deleted")] ∧
      (remove_comment db cid u).2.comments.find? (fun x => x.id == cid)
        = none) ∧
    (u.id ≠ c.user_id →
      remove_comment db cid u
        = (.error (mkExc 403 .FORBIDDEN (str "삭제 권한 없음")
            (some (.dict [(str "comment_id", .i cid)]))), db)) := by
  constructor
  · intro hown
    unfold remove_comment delete_comment
    rw [hfind]
    dsimp only
    rw [if_neg (fun hne => hne hown.symm)]
    refine ⟨rfl, ?_⟩
    rw [List.find?_eq_none]
    intro x hx
    have hxne := (List.mem_filter.mp hx).2
    simp only [bne_iff_ne, ne_eq] at hxne
    simp [hxne]
  · intro hne
    unfold remove_comment delete_comment
    rw [hfind]
    dsimp only
    rw [if_pos (fun h => hne h.symm)]

/-- C8 witness: the author succeeds deleting the sample comment and the
non-author ADMIN caller is rejected. -/
theorem C8_witness :
    dbMain.comments.find? (fun x => x.id == 1) = some commentC ∧
    (1 : Int) = commentC.user_id ∧ (2 : Int) ≠ commentC.user_id ∧
    ((remove_comment dbMain 1 { id := 1, role := str "USER" }).1
        = .ok [(str "message", str "deleted")] ∧
     (remove_comment dbMain 1
         { id := 1, role := str "USER" }).2.comments.find?
         (fun x => x.id == 1) = none) ∧
    remove_comment dbMain 1 { id := 2, role := str "ADMIN" }
      = (.error (mkExc 403 .FORBIDDEN (str "삭제 권한 없음")
          (some (.dict [(str "comment_id", .i 1)]))), dbMain) :=
  ⟨by decide, by decide, by decide,
   (C8_delete_only_author dbMain 1 { id := 1, role := str "USER" } commentC
      (by decide)).1 (by decide),
   (C8_delete_only_author dbMain 1 { id := 2, role := str "ADMIN" } commentC
      (by decide)).2 (by decide)⟩

/-- C9 counterexample: a transient database failure on commit (commitOk
false) during registration of a fresh email is reported as 409
DUPLICATE_RESOURCE with the duplicate-email message, not as a 500-class
INTERNAL_SERVER_ERROR or DATABASE_ERROR, so the claim is false on the
code. -/
theorem C9_counterexample :
    create_user { } false (fun p => p) 1
      { email := str "new@example.com", password := str "pw",
        name := str "N" }
      = (.error (mkExc 409 .DUPLICATE_RESOURCE
          (str "이미 존재하는 이메일입니다.")
          (some (.dict [(str "email", .s (str "new@example.com"))]))),
         { }) := by
  decide

/-- C9 (amended): every failure of create_user - a duplicate email as well
as any transient commit failure - is reported as 409 DUPLICATE_RESOURCE
with the duplicate-email message and a rollback (the bare except maps all
exceptions alike), and no 500-class error is ever produced; the success
path inserts exactly one user row. -/
theorem C9_create_user_conflict
    (db : DB) (commitOk : Bool) (hash : PyStr → PyStr) (nid : Int)
    (data : UserCreate) :
    ((commitOk = false ∨ ∃ u ∈ db.users, u.email = data.email) →
      create_user db commitOk hash nid data
        = (.error (mkExc 409 .DUPLICATE_RESOURCE
            (str "이미 존재하는 이메일입니다.")
            (some (.dict [(str "email", .s data.email)]))), db)) ∧
    (commitOk = true → (¬ ∃ u ∈ db.users, u.email = data.email) →
      create_user db commitOk hash nid data
        = (.ok { id := nid, email := data.email,
                 hashed_password := hash data.password, name := data.name,
                 phone := data.phone, address := data.address,
                 role := str "USER", status := str "ACTIVE" },
           { db with
             users := db.users
               ++ [{ id := nid, email := data.email,
                     hashed_password := hash data.password,
                     name := data.name, phone := data.phone,
                     address := data.address, role := str "USER",
                     status := str "ACTIVE" }] })) := by
  constructor
  · intro hfail
    unfold create_user
    have hc : (db.users.any (fun u => u.email == data.email) || !commitOk)
        = true := by
      rcases hfail with hcf | ⟨u, hu, he⟩
      · rw [hcf]; simp
      · have hany : db.users.any (fun u => u.email == data.email) = true :=
          List.any_eq_true.mpr ⟨u, hu, by simp [he]⟩
        simp [hany]
    rw [if_pos hc]
  · intro hok hnodup
    unfold create_user
    have hc : (db.users.any (fun u => u.email == data.email) || !commitOk)
        = false := by
      rw [hok]
      simp only [Bool.not_true, Bool.or_false]
      rw [List.any_eq_false]
      intro u hu
      simp only [beq_iff_eq]
      exact fun he => hnodup ⟨u, hu, he⟩
    rw [if_neg (by simp [hc])]

/-- C9 witness: a transient failure on a fresh email yields the 409
conflict, and a successful commit inserts the row, both against the sample
database. -/
theorem C9_witness :
    ((false = false) ∨
      ∃ u ∈ dbMain.users, u.email = str "new@example.com") ∧
    (¬ ∃ u ∈ dbMain.users, u.email = str "new@example.com") ∧
    create_user dbMain false (fun p => p) 3
      { email := str "new@example.com", password := str "pw",
        name := str "N" }
      = (.error (mkExc 409 .DUPLICATE_RESOURCE
          (str "이미 존재하는 이메일입니다.")
          (some (.dict [(str "email", .s (str "new@example.com"))]))),
         dbMain) ∧
    create_user dbMain true (fun p => p) 3
      { email := str "new@example.com", password := str "pw",
        name := str "N" }
      = (.ok { id := 3, email := str "new@example.com",
               hashed_password := str "pw", name := str "N",
               phone := none, address := none, role := str "USER",
               status := str "ACTIVE" },
         { dbMain with
           users := dbMain.users
             ++ [{ id := 3, email := str "new@example.com",
                   hashed_password := str "pw", name := str "N",
                   phone := none, address := none, role := str "USER",
                   status := str "ACTIVE" }] }) :=
  ⟨Or.inl rfl, by decide,
   (C9_create_user_conflict dbMain false (fun p => p) 3
      { email := str "new@example.com", password := str "pw",
        name := str "N" }).1 (Or.inl rfl),
   (C9_create_user_conflict dbMain true (fun p => p) 3
      { email := str "new@example.com", password := str "pw",
        name := str "N" }).2 rfl (by decide)⟩

/-- C10: the keyword parameter of the ratings listing is an exact-score
filter: a keyword that does not parse as an integer is rejected with 422
VALIDATION_FAILED citing the keyword field before any query, and a keyword
parsing as k makes the page (at page one with size covering the matches,
under the default sort) contain exactly the ratings of the book whose
score equals k. -/
theorem C10_keyword_score_filter (db : DB) (bid : Int) (kw : PyStr) :
    (∀ (page size : Int) (sortS : PyStr) (mn mx : Option Int),
      pyIntParse kw = none →
      get_book_ratings db bid page size sortS (some kw) mn mx
        = (.error (mkExc 422 .VALIDATION_FAILED (str "Validation failed")
            (some (.fieldList [(str "keyword", str "must be integer")]))),
           0)) ∧
    (∀ (k size : Int),
      pyIntParse kw = some k → 1 ≤ size →
      (db.ratings.filter
          (fun r => r.book_id == bid && r.score == k)).length ≤ size.toNat →
      ∃ rp, (get_book_ratings db bid 1 size (str "id,DESC") (some kw)
               none none).1 = .ok rp ∧
        rp.content.Perm
          ((db.ratings.filter
              (fun r => r.book_id == bid && r.score == k)).map
            ratingResponseOf)) := by
  constructor
  · intro page size sortS mn mx hparse
    unfold get_book_ratings
    dsimp only
    rw [hparse]
  · intro k size hparse hsize hsmall
    unfold get_book_ratings
    dsimp only
    rw [hparse]
    dsimp only
    rw [show splitChar ',' (str "id,DESC") = [str "id", str "DESC"] from
      by decide]
    dsimp only
    rw [if_pos (by decide : pyUpper (str "DESC") = str "ASC" ∨
      pyUpper (str "DESC") = str "DESC")]
    dsimp only
    rw [if_neg (by decide : ¬(str "id" ∉ Rating.attrNames))]
    rw [if_neg (by decide : ¬((1 : Int) < 1))]
    rw [if_neg (by omega : ¬(size < 1))]
    rw [pyFloorDiv_eq_ok _ _ (by omega : ¬(size = 0))]
    dsimp only [wrapBare]
    have hcombo : (db.ratings.filter (fun r => r.book_id == bid)).filter
        (fun r => r.score == k)
        = db.ratings.filter (fun r => r.book_id == bid && r.score == k) := by
      rw [List.filter_filter]
      congr 1
      funext r
      exact Bool.and_comm _ _
    rw [hcombo]
    rw [show ((1 : Int) - 1) * size = 0 from by ring]
    have hdrop : ∀ (l : List Rating), dropInt l 0 = l := fun l => by
      simp [dropInt]
    rw [hdrop]
    have htake : takeInt (orderBy (ratingColLe (str "id"))
        (pyUpper (str "DESC") == str "DESC")
        (db.ratings.filter (fun r => r.book_id == bid && r.score == k)))
        size
        = orderBy (ratingColLe (str "id"))
            (pyUpper (str "DESC") == str "DESC")
            (db.ratings.filter
              (fun r => r.book_id == bid && r.score == k)) := by
      unfold takeInt
      rw [if_neg (by omega : ¬(size < 0))]
      exact List.take_of_length_le (by rw [length_orderBy]; exact hsmall)
    rw [htake]
    refine ⟨_, rfl, ?_⟩
    exact (perm_orderBy _ _ _).map ratingResponseOf

/-- C10 witness: a non-numeric keyword is rejected citing keyword, and
keyword 3 selects exactly the score-3 rating of book 1 in the sample
database. -/
theorem C10_witness :
    pyIntParse (str "abc") = none ∧
    pyIntParse (str "3") = some 3 ∧ (1 : Int) ≤ 10 ∧
    (dbMain.ratings.filter
        (fun r => r.book_id == 1 && r.score == 3)).length ≤ (10 : Int).toNat ∧
    get_book_ratings dbMain 1 1 10 (str "id,DESC") (some (str "abc"))
        none none
      = (.error (mkExc 422 .VALIDATION_FAILED (str "Validation failed")
          (some (.fieldList [(str "keyword", str "must be integer")]))),
         0) ∧
    (∃ rp, (get_book_ratings dbMain 1 1 10 (str "id,DESC") (some (str "3"))
              none none).1 = .ok rp ∧
       rp.content.Perm
         ((dbMain.ratings.filter
             (fun r => r.book_id == 1 && r.score == 3)).map
           ratingResponseOf)) :=
  ⟨by decide, by decide, by decide, by decide,
   (C10_keyword_score_filter dbMain 1 (str "abc")).1 1 10 (str "id,DESC")
     none none (by decide),
   (C10_keyword_score_filter dbMain 1 (str "3")).2 3 10 (by decide)
     (by decide) (by decide)⟩
